import Mathlib

/-!
Verification of the Mycodo Atlas Scientific calibration / pH measurement
subsystem (`mycodo/utils/calibration.py`, `mycodo/inputs/atlas_ph.py`).

Shallow embedding conventions:
* Python `(err, msg)` result pairs become `PStatus × String`; the Python
  values `0`, `1` and the string `'success'` become `PStatus.num 0`,
  `PStatus.num 1`, `PStatus.str "success"`.
* A raised-and-caught Python exception is modelled by the captured
  description string that `except Exception as err: return 1, err` yields.
* Transport objects are oracles: a `query` function plus the
  `get_board_version` triple they answer at construction time.
* `AtlasScientificCommand.send_command` is instrumented to also report the
  list of commands that actually reached a live transport object
  (`queries`) and the settle delays slept, in milliseconds (`sleeps`);
  `calibrate` additionally reports the literals it passed to
  `send_command` (`sends`), in order.
* `InputModule.get_measurement` returns `Except String CycleOut`: a
  `.error` is a Python exception escaping the function, `.ok` carries the
  value stored at measurement index 0 and the log lines emitted (log
  lines keep the identifying text of the source message; formatting of
  interpolated lists is elided).
-/

namespace Mycodo

/-- Python dynamic status values returned in the first component of an
`(err, msg)` pair: the ints `0` / `1`, or the string `'success'` used by
the legacy `calibrated` branch. -/
inductive PStatus where
  | num (n : Nat)
  | str (s : String)
deriving DecidableEq, Repr

/-- Character-list digit test (used by the decimal parser). -/
def allDigits (l : List Char) : Bool := l.all Char.isDigit

/-- Value of a digit string, most significant first. -/
def digitsVal (l : List Char) : Nat := l.foldl (fun a c => a * 10 + (c.toNat - 48)) 0

/-- Split a character list at a separator character (Python `str.split(sep)`
semantics for a one-character separator: `"" → [""]`, separators at the
ends produce empty fields). -/
def splitCharAux (sep : Char) : List Char → List Char → List (List Char)
  | [], acc => [acc.reverse]
  | c :: rest, acc =>
    if c = sep then acc.reverse :: splitCharAux sep rest []
    else splitCharAux sep rest (c :: acc)

/-- String version of `splitCharAux`, mirroring Python `s.split(sep)` for a
one-character separator. -/
def pySplit (s : String) (sep : Char) : List String :=
  (splitCharAux sep s.toList []).map (fun l => String.mk l)

/-- Python `sep in s` membership for a single character. -/
def pyContainsChar (s : String) (c : Char) : Bool := s.toList.contains c

/-- Modelled from the spec: `str_is_float` lives in
`mycodo.utils.system_pi`, which is not under `src/`; the spec describes it
as testing whether a string is "parseable as a float".  This decimal
parser accepts an optional sign, an integer part and an optional
fractional part (at least one digit overall), returning the exact rational
value. -/
def parseDec? (s : String) : Option ℚ :=
  let l := s.toList
  let (sgn, body) : ℚ × List Char :=
    match l with
    | '-' :: rest => (-1, rest)
    | '+' :: rest => (1, rest)
    | _ => (1, l)
  match splitCharAux '.' body [] with
  | [ip] =>
    if ip ≠ [] ∧ allDigits ip then some (sgn * digitsVal ip) else none
  | [ip, fp] =>
    if (ip ≠ [] ∨ fp ≠ []) ∧ allDigits ip ∧ allDigits fp then
      some (sgn * ((digitsVal ip : ℚ) + (digitsVal fp : ℚ) / ((10 : ℚ) ^ fp.length)))
    else none
  | _ => none

/-- Modelled from the spec: `str_is_float(text)` is true exactly when the
text parses as a float. -/
def str_is_float (s : String) : Bool := (parseDec? s).isSome

/-- Python `float(s)` on a string that `str_is_float` accepted (the source
only converts strings that passed the test, so the default is never
used). -/
def pyFloat (s : String) : ℚ := (parseDec? s).getD 0

/-- Modelled from the spec: the source applies `str_is_float` to
`float_value`, which is `None` when no line of the response parsed as a
float; per the spec's parse description ("if none found ... Faulted"),
an absent candidate is not a float. -/
def strIsFloatOpt : Option String → Bool
  | none => false
  | some s => str_is_float s

/-- External transport collaborator (AtlasScientificFTDI / UART / I2C or
the `sensor` passed to the constructor): a query oracle — `.error` is a
raised exception's description — plus the `get_board_version` triple
`(measurement, board_version, firmware_version)` it answers at
construction. -/
structure Transport where
  query : String → Except String String
  get_board_version : String × Nat × String

/-- State of `AtlasScientificCommand` after `__init__`: note that
`__init__` stores the constructed device in `atlas_device` but initializes
`ph_sensor_uart` and `ph_sensor_i2c` to `None` and never assigns
`ph_sensor_ftdi` at all; `none` here models both an attribute holding
`None` and a missing attribute (each access raises, with its own
message). -/
structure AtlasScientificCommand where
  interface : String
  atlas_device : Transport
  ph_sensor_ftdi : Option Transport
  ph_sensor_uart : Option Transport
  ph_sensor_i2c : Option Transport
  measurement : String
  board_version : Nat
  firmware_version : String
  init_error : Option String

/-- Init diagnostic built by `__init__` when `get_board_version` reports
generation 0. -/
def initErrorMsg (meas : String) (bv : Nat) (fw : String) : String :=
  "Atlas Scientific board initialization unsuccessful. Unable to retrieve device info (this indicates the device was not properly initialized or connected). Returned: "
    ++ meas ++ ", " ++ toString bv ++ ", " ++ fw

/-- `AtlasScientificCommand.__init__` (the transport-factory imports are
external; the constructed or passed-in device is the `dev` argument).
`init_error` is `None`-or-message; the source tests it with truthiness,
which on this domain (never the empty string) is `isSome`. -/
def AtlasScientificCommand.make (iface : String) (dev : Transport) : AtlasScientificCommand :=
  { interface := iface
    atlas_device := dev
    ph_sensor_ftdi := none
    ph_sensor_uart := none
    ph_sensor_i2c := none
    measurement := dev.get_board_version.1
    board_version := dev.get_board_version.2.1
    firmware_version := dev.get_board_version.2.2
    init_error :=
      if dev.get_board_version.2.1 = 0 then
        some (initErrorMsg dev.get_board_version.1 dev.get_board_version.2.1
          dev.get_board_version.2.2)
      else none }

/-- Instrumented result of `send_command`: the returned `(err, msg)` pair,
the commands that reached a live transport object, and the settle delays
slept (ms). -/
structure SendOut where
  status : PStatus
  msg : String
  queries : List String
  sleeps : List Nat
deriving DecidableEq, Repr

/-- Description of the exception raised by `self.ph_sensor_ftdi` when the
attribute was never assigned. -/
def ftdiAttrErr : String :=
  "AttributeError: AtlasScientificCommand object has no attribute ph_sensor_ftdi"

/-- Description of the exception raised by `None.query(...)` when the
`ph_sensor_uart` / `ph_sensor_i2c` attribute still holds `None`. -/
def noneAttrErr : String := "AttributeError: NoneType object has no attribute query"

/-- `AtlasScientificCommand.send_command`: `None` short-circuits to
`(1, "No command given")`; otherwise dispatch on `self.interface` through
the `ph_sensor_*` attribute, sleep 100 ms, and return `(0, return_value)`;
any exception is caught and returned as `(1, description)`.  An interface
matching none of the three kinds leaves `return_value = "No message"` and
still sleeps and returns `(0, "No message")`. -/
def AtlasScientificCommand.send_command (st : AtlasScientificCommand)
    (cmd_send : Option String) : SendOut :=
  match cmd_send with
  | none => ⟨.num 1, "No command given", [], []⟩
  | some c =>
    if st.interface = "FTDI" then
      match st.ph_sensor_ftdi with
      | none => ⟨.num 1, ftdiAttrErr, [], []⟩
      | some tr =>
        match tr.query c with
        | .error e => ⟨.num 1, e, [c], []⟩
        | .ok rv => ⟨.num 0, rv, [c], [100]⟩
    else if st.interface = "UART" then
      match st.ph_sensor_uart with
      | none => ⟨.num 1, noneAttrErr, [], []⟩
      | some tr =>
        match tr.query c with
        | .error e => ⟨.num 1, e, [c], []⟩
        | .ok rv => ⟨.num 0, rv, [c], [100]⟩
    else if st.interface = "I2C" then
      match st.ph_sensor_i2c with
      | none => ⟨.num 1, noneAttrErr, [], []⟩
      | some tr =>
        match tr.query c with
        | .error e => ⟨.num 1, e, [c], []⟩
        | .ok rv => ⟨.num 0, rv, [c], [100]⟩
    else ⟨.num 0, "No message", [], [100]⟩

/-- Instrumented result of `calibrate`: the returned `(err, msg)` pair,
the literals passed to `send_command` in order (`sends`), and the
transport queries / sleeps accumulated by those sends. -/
structure CalOut where
  status : PStatus
  msg : String
  sends : List (Option String)
  queries : List String
  sleeps : List Nat
deriving DecidableEq, Repr

/-- One `err, msg = self.send_command(c)` step inside `calibrate`. -/
def sendStep (st : AtlasScientificCommand) (c : Option String) : CalOut :=
  let o := st.send_command c
  ⟨o.status, o.msg, [c], o.queries, o.sleeps⟩

/-- Python `'fmt{x}'.format(x=set_amount)` rendering of the operand:
`None` prints as `"None"`. -/
def fmtOperand : Option String → String
  | none => "None"
  | some x => x

/-- `AtlasScientificCommand.calibrate(command, set_amount, custom_cmd)`:
the board-version-dependent elif chain of the source, with
`err = 1; msg = "Default message"` defaults, `msg` pre-set to the init
diagnostic when one was recorded, and the trailing `elif custom_cmd:`
branch (truthy: a non-`None`, non-empty literal). -/
def AtlasScientificCommand.calibrate (st : AtlasScientificCommand) (command : String)
    (set_amount : Option String) (custom_cmd : Option String) : CalOut :=
  let msg0 : String :=
    match st.init_error with
    | some e => e
    | none => "Default message"
  let skip : CalOut := ⟨.num 1, msg0, [], [], []⟩
  if command = "ec_dry" then
    if st.board_version = 2 then sendStep st (some "cal,dry") else skip
  else if command = "ec_low" then
    if st.board_version = 2 then sendStep st (some ("cal,low," ++ fmtOperand set_amount))
    else skip
  else if command = "ec_high" then
    if st.board_version = 2 then sendStep st (some ("cal,high," ++ fmtOperand set_amount))
    else skip
  else if command = "temperature" ∧ set_amount.isSome then
    match set_amount with
    | some x =>
      if st.board_version = 1 then sendStep st (some x)
      else if st.board_version = 2 then sendStep st (some ("T," ++ x))
      else skip
    | none => skip
  else if command = "clear_calibration" then
    if st.board_version = 1 then
      let o1 := st.send_command (some "X")
      let o2 := st.send_command (some "L0")
      ⟨o1.status, o1.msg, [some "X", some "L0"], o1.queries ++ o2.queries,
        o1.sleeps ++ o2.sleeps⟩
    else if st.board_version = 2 then sendStep st (some "Cal,clear")
    else skip
  else if command = "continuous" then
    if st.board_version = 1 then sendStep st (some "C")
    else if st.board_version = 2 then sendStep st (some "C,1")
    else skip
  else if command = "low" then
    if st.board_version = 1 then sendStep st (some "F")
    else if st.board_version = 2 then sendStep st (some "Cal,low,4.00")
    else skip
  else if command = "mid" then
    if st.board_version = 1 then sendStep st (some "S")
    else if st.board_version = 2 then sendStep st (some "Cal,mid,7.00")
    else skip
  else if command = "high" then
    if st.board_version = 1 then sendStep st (some "T")
    else if st.board_version = 2 then sendStep st (some "Cal,high,10.00")
    else skip
  else if command = "calibrated" then
    if st.board_version = 1 then
      ⟨.str "success",
        "Calibrated query not implemented on board version 1 (assume it was successfully calibrated)",
        [], [], []⟩
    else if st.board_version = 2 then sendStep st (some "Cal,?")
    else skip
  else if command = "end" then
    if st.board_version = 1 then sendStep st (some "E")
    else if st.board_version = 2 then sendStep st (some "C,0")
    else skip
  else
    match custom_cmd with
    | some c => if c = "" then skip else sendStep st (some c)
    | none => skip

/-- Rendering of the dynamic status value inside a log format string. -/
def statusRepr : PStatus → String
  | .num n => toString n
  | .str s => s

/-- State of `InputModule` (atlas_ph.py) at the start of `get_measurement`.
The device is an oracle: `setup` is `atlas_device.setup`; `query_lines`
is the `(status, line list)` an FTDI/UART device answers to `query('R')`
and `query_pair` the `(status, payload)` an I2C device answers (per the
external transport contract each kind answers in its own shape).
`last_measurement` is the `get_last_measurement` oracle (timestamp,
value); `temp_comp_configured` is the truthiness of
`temperature_comp_meas_measurement_id`. -/
structure InputModuleState where
  interface : String
  setup : Bool
  query_lines : String × List String
  query_pair : String × String
  temp_comp_configured : Bool
  atlas_command : Option AtlasScientificCommand
  last_measurement : Option (String × String)
  max_age : Nat

/-- Result of one measurement cycle: `returned = none` models the early
`return` (Python `None`) of the not-set-up path; `returned = some v`
models returning `self.return_dict` with `value_set(0, v)` applied
(`v = none` is an absent pH).  `logs` collects the emitted log lines. -/
structure CycleOut where
  returned : Option (Option ℚ)
  logs : List String
deriving DecidableEq

/-- `InputModule.get_measurement`: the full cycle — not-set-up guard,
optional temperature compensation, raw `'R'` read, transport-specific
parse, `value_set(0, ph)`.  A `.error` is an uncaught Python exception
escaping the method (the I2C branch indexes `ph_str.split(',')[2]`
guarded only by `',' in ph_str`). -/
def InputModule.get_measurement (st : InputModuleState) : Except String CycleOut :=
  if st.setup = false then .ok ⟨none, ["Sensor not set up"]⟩
  else
    let compLogs : List String :=
      if st.temp_comp_configured && st.atlas_command.isSome then
        match st.atlas_command with
        | some ac =>
          match st.last_measurement with
          | some lm =>
            let r := ac.calibrate "temperature" (some lm.2) none
            ["pH sensor set to calibrate temperature",
             "Latest temperature used to calibrate: " ++ lm.2,
             "Calibration returned: " ++ statusRepr r.status ++ ", " ++ r.msg]
          | none =>
            ["pH sensor set to calibrate temperature",
             "Calibration measurement not found within the past "
               ++ toString st.max_age ++ " seconds"]
        | none => []
      else []
    if st.interface = "FTDI" ∨ st.interface = "UART" then
      let ph_list := st.query_lines.2
      let listLogs : List String := if ph_list = [] then [] else ["Returned list"]
      let float_value : Option String := ph_list.find? str_is_float
      if "check probe" ∈ ph_list then
        .ok ⟨some none, compLogs ++ listLogs ++ ["check probe returned from sensor"]⟩
      else if strIsFloatOpt float_value then
        .ok ⟨some (float_value.map pyFloat), compLogs ++ listLogs ++ ["Found float value"]⟩
      else
        .ok ⟨some none,
          compLogs ++ listLogs ++ ["Value or check probe not found in list"]⟩
    else if st.interface = "I2C" then
      let ph_status := st.query_pair.1
      let ph_str := st.query_pair.2
      if ph_status = "error" then
        .ok ⟨some none, compLogs ++ ["Sensor read unsuccessful: " ++ ph_str]⟩
      else if ph_status = "success" then
        let firstTest : Except String Bool :=
          if pyContainsChar ph_str ',' then
            match (pySplit ph_str ',').get? 2 with
            | none => .error "IndexError: list index out of range"
            | some f2 => .ok (str_is_float f2)
          else .ok false
        match firstTest with
        | .error e => .error e
        | .ok true =>
          .ok ⟨some (some (pyFloat ((pySplit ph_str ',').getD 2 ""))), compLogs⟩
        | .ok false =>
          if str_is_float ph_str then .ok ⟨some (some (pyFloat ph_str)), compLogs⟩
          else
            .ok ⟨some none,
              compLogs ++ ["Could not determine pH from returned string: " ++ ph_str]⟩
      else .ok ⟨some none, compLogs⟩
    else .ok ⟨some none, compLogs⟩

/-- Input-module state for an I2C device that is set up, with temperature
compensation not configured, whose raw read answers `resp`. -/
def i2cInputState (resp : String × String) : InputModuleState :=
  { interface := "I2C"
    setup := true
    query_lines := ("", [])
    query_pair := resp
    temp_comp_configured := false
    atlas_command := none
    last_measurement := none
    max_age := 120 }

/-- Input-module state for an FTDI or UART device that is set up, with
temperature compensation not configured, whose raw read answers
`(stat, lines)`. -/
def ftdiUartInputState (iface stat : String) (lines : List String) : InputModuleState :=
  { interface := iface
    setup := true
    query_lines := (stat, lines)
    query_pair := ("", "")
    temp_comp_configured := false
    atlas_command := none
    last_measurement := none
    max_age := 120 }

/-- Transport stub for concrete instantiations: a live, always-answering
device. -/
def stubQuery : String → Except String String := fun c => .ok ("response to " ++ c)

/-- An `AtlasScientificCommand` as `__init__` leaves it, for a device whose
`get_board_version` answers `(meas, bv, fw)` and whose query oracle is
`q`. -/
def mkCmd (iface meas fw : String) (bv : Nat) (q : String → Except String String) :
    AtlasScientificCommand :=
  AtlasScientificCommand.make iface ⟨q, (meas, bv, fw)⟩

/-- Result of a `calibrate` call that reached no `send_command` while an
init fault is recorded: status `1` and the stored diagnostic. -/
def initFaultResult (meas fw : String) : CalOut :=
  ⟨.num 1, initErrorMsg meas 0 fw, [], [], []⟩

/-- Spec-side description of the FTDI/UART response parse (claim C6): the
probe-fault token takes precedence; otherwise the reading is the first
line parseable as a float; otherwise no value. -/
def ftdiExpected (lines : List String) : Option ℚ :=
  if "check probe" ∈ lines then none
  else
    match lines.find? str_is_float with
    | some s => some (pyFloat s)
    | none => none

/-- C1 counterexample: with the init fault recorded (generation 0), a
`calibrate` call with the symbolic command `temperature`, no operand and a
custom literal falls through to the `elif custom_cmd:` branch: the custom
literal is passed to `send_command` and the returned message is that
send's result, not the stored init diagnostic. -/
theorem c1_init_fault_counterexample :
    (mkCmd "I2C" "pH" "2.1" 0 stubQuery).init_error
        = some (initErrorMsg "pH" 0 "2.1") ∧
    ((mkCmd "I2C" "pH" "2.1" 0 stubQuery).calibrate "temperature" none (some "foo")).sends
        = [some "foo"] ∧
    ((mkCmd "I2C" "pH" "2.1" 0 stubQuery).calibrate "temperature" none (some "foo")).msg
        ≠ initErrorMsg "pH" 0 "2.1" :=
  ⟨rfl, rfl, by decide⟩

/-- C1 (amended): with generation 0 recorded at construction, every
`calibrate` call whose named command matches a branch of the chain (any
command of the enumerated set, where `temperature` requires an operand)
returns status `1` with the stored init diagnostic and passes nothing to
`send_command`; but a call where no branch matches and a non-empty custom
literal is supplied passes the custom literal to `send_command` instead
of short-circuiting. -/
theorem c1_init_fault_amended (iface meas fw x : String)
    (q : String → Except String String) (samt custom : Option String) :
    (mkCmd iface meas fw 0 q).calibrate "ec_dry" samt custom = initFaultResult meas fw ∧
    (mkCmd iface meas fw 0 q).calibrate "ec_low" samt custom = initFaultResult meas fw ∧
    (mkCmd iface meas fw 0 q).calibrate "ec_high" samt custom = initFaultResult meas fw ∧
    (mkCmd iface meas fw 0 q).calibrate "temperature" (some x) custom
        = initFaultResult meas fw ∧
    (mkCmd iface meas fw 0 q).calibrate "clear_calibration" samt custom
        = initFaultResult meas fw ∧
    (mkCmd iface meas fw 0 q).calibrate "continuous" samt custom = initFaultResult meas fw ∧
    (mkCmd iface meas fw 0 q).calibrate "low" samt custom = initFaultResult meas fw ∧
    (mkCmd iface meas fw 0 q).calibrate "mid" samt custom = initFaultResult meas fw ∧
    (mkCmd iface meas fw 0 q).calibrate "high" samt custom = initFaultResult meas fw ∧
    (mkCmd iface meas fw 0 q).calibrate "calibrated" samt custom = initFaultResult meas fw ∧
    (mkCmd iface meas fw 0 q).calibrate "end" samt custom = initFaultResult meas fw ∧
    ((mkCmd iface meas fw 0 q).calibrate "temperature" none (some "foo")).sends
        = [some "foo"] :=
  ⟨rfl, rfl, rfl, rfl, rfl, rfl, rfl, rfl, rfl, rfl, rfl, rfl⟩

/-- C2 (code bug): an I2C read cycle whose raw query answers
`("success", "7.00,5")` — a comma-containing payload with fewer than
three comma-delimited fields — evaluates `ph_str.split(',')[2]` guarded
only by `',' in ph_str`, so an IndexError escapes `get_measurement`
unhandled instead of producing an absent value plus a logged
diagnostic. -/
theorem c2_unhandled_index_error_code_bug :
    InputModule.get_measurement (i2cInputState ("success", "7.00,5"))
      = .error "IndexError: list index out of range" := rfl

/-- C3 (code bug): for a non-empty literal, `send_command` dispatches on
`self.ph_sensor_ftdi` / `self.ph_sensor_uart` / `self.ph_sensor_i2c`,
which `__init__` left unassigned or `None` (the constructed device went
into `self.atlas_device`); the dispatch therefore raises an
AttributeError that the `except` converts to `(1, description)` — no
query ever reaches the device, no settle delay is slept, and the success
result `(0, response)` is unreachable, for all three interface kinds. -/
theorem c3_send_command_code_bug :
    (mkCmd "UART" "pH" "2.1" 2 stubQuery).send_command (some "R")
        = ⟨.num 1, noneAttrErr, [], []⟩ ∧
    (mkCmd "FTDI" "pH" "2.1" 2 stubQuery).send_command (some "R")
        = ⟨.num 1, ftdiAttrErr, [], []⟩ ∧
    (mkCmd "I2C" "pH" "2.1" 2 stubQuery).send_command (some "R")
        = ⟨.num 1, noneAttrErr, [], []⟩ :=
  ⟨rfl, rfl, rfl⟩

/-- C4 counterexample: `send_command("")` does not return
`(Err, "No command given")` — the source only special-cases
`cmd_send is not None`, and the empty string is not `None`, so the call
takes the dispatch path (here returning the captured AttributeError
description). -/
theorem c4_empty_command_counterexample :
    (mkCmd "I2C" "pH" "2.1" 2 stubQuery).send_command (some "")
        = ⟨.num 1, noneAttrErr, [], []⟩ ∧
    noneAttrErr ≠ "No command given" :=
  ⟨rfl, by decide⟩

/-- C4 (amended): `send_command(None)` returns `(Err, "No command given")`
with zero transport invocations; `send_command("")` is not special-cased —
it enters the dispatch path like any non-`None` literal (on this code the
dispatch fails with the captured AttributeError description, still with
zero queries reaching a device) and its message is never
`"No command given"`. -/
theorem c4_empty_command_amended (iface meas fw : String) (bv : Nat)
    (q : String → Except String String) :
    (mkCmd iface meas fw bv q).send_command none
        = ⟨.num 1, "No command given", [], []⟩ ∧
    ((mkCmd iface meas fw bv q).send_command (some "")).queries = [] ∧
    ((mkCmd iface meas fw bv q).send_command (some "")).msg ≠ "No command given" := by
  refine ⟨rfl, ?_, ?_⟩ <;>
  · unfold AtlasScientificCommand.send_command mkCmd AtlasScientificCommand.make
    by_cases h1 : iface = "FTDI" <;> by_cases h2 : iface = "UART" <;>
      by_cases h3 : iface = "I2C" <;>
      simp [h1, h2, h3, ftdiAttrErr, noneAttrErr]

/-- C5 counterexample: the legacy `calibrated` branch does not return the
message quoted in the claim — the fixed message in the source is
`Calibrated query not implemented on board version 1 (assume it was
successfully calibrated)`. -/
theorem c5_translation_counterexample :
    ((mkCmd "I2C" "pH" "2.1" 1 stubQuery).calibrate "calibrated" none none).msg
        ≠ "not implemented on legacy board, assume calibrated" ∧
    ((mkCmd "I2C" "pH" "2.1" 1 stubQuery).calibrate "calibrated" none none)
        = ⟨.str "success",
            "Calibrated query not implemented on board version 1 (assume it was successfully calibrated)",
            [], [], []⟩ :=
  ⟨by decide, rfl⟩

/-- C5 (amended): with no init fault recorded, the command translation in
`calibrate` reproduces the table of §4.2 exactly at the `send_command`
boundary for every (symbolic command, generation) pair: Legacy sends
`F`/`S`/`T`/`C`/`E` for low/mid/high/continuous/end, the operand verbatim
for temperature, and `X` then `L0` for clear_calibration; Current sends
`cal,dry`, `cal,low,{x}`, `cal,high,{x}`, `T,{x}`, `Cal,clear`, `C,1`,
`Cal,low,4.00`, `Cal,mid,7.00`, `Cal,high,10.00`, `Cal,?`, `C,0`;
unmapped pairs (the ec commands on Legacy) send nothing and resolve to
`(1, "Default message")`; and Legacy `calibrated` sends nothing,
returning the status string `success` with the fixed message
`Calibrated query not implemented on board version 1 (assume it was
successfully calibrated)`. -/
theorem c5_translation_amended (iface meas fw x : String)
    (q : String → Except String String) (samt : Option String) :
    ((mkCmd iface meas fw 1 q).calibrate "low" none none).sends = [some "F"] ∧
    ((mkCmd iface meas fw 1 q).calibrate "mid" none none).sends = [some "S"] ∧
    ((mkCmd iface meas fw 1 q).calibrate "high" none none).sends = [some "T"] ∧
    ((mkCmd iface meas fw 1 q).calibrate "continuous" none none).sends = [some "C"] ∧
    ((mkCmd iface meas fw 1 q).calibrate "end" none none).sends = [some "E"] ∧
    ((mkCmd iface meas fw 1 q).calibrate "temperature" (some x) none).sends = [some x] ∧
    ((mkCmd iface meas fw 1 q).calibrate "clear_calibration" none none).sends
        = [some "X", some "L0"] ∧
    (mkCmd iface meas fw 1 q).calibrate "ec_dry" samt none
        = ⟨.num 1, "Default message", [], [], []⟩ ∧
    (mkCmd iface meas fw 1 q).calibrate "ec_low" samt none
        = ⟨.num 1, "Default message", [], [], []⟩ ∧
    (mkCmd iface meas fw 1 q).calibrate "ec_high" samt none
        = ⟨.num 1, "Default message", [], [], []⟩ ∧
    (mkCmd iface meas fw 1 q).calibrate "calibrated" none none
        = ⟨.str "success",
            "Calibrated query not implemented on board version 1 (assume it was successfully calibrated)",
            [], [], []⟩ ∧
    ((mkCmd iface meas fw 2 q).calibrate "ec_dry" none none).sends = [some "cal,dry"] ∧
    ((mkCmd iface meas fw 2 q).calibrate "ec_low" (some x) none).sends
        = [some ("cal,low," ++ x)] ∧
    ((mkCmd iface meas fw 2 q).calibrate "ec_high" (some x) none).sends
        = [some ("cal,high," ++ x)] ∧
    ((mkCmd iface meas fw 2 q).calibrate "temperature" (some x) none).sends
        = [some ("T," ++ x)] ∧
    ((mkCmd iface meas fw 2 q).calibrate "clear_calibration" none none).sends
        = [some "Cal,clear"] ∧
    ((mkCmd iface meas fw 2 q).calibrate "continuous" none none).sends = [some "C,1"] ∧
    ((mkCmd iface meas fw 2 q).calibrate "low" none none).sends = [some "Cal,low,4.00"] ∧
    ((mkCmd iface meas fw 2 q).calibrate "mid" none none).sends = [some "Cal,mid,7.00"] ∧
    ((mkCmd iface meas fw 2 q).calibrate "high" none none).sends
        = [some "Cal,high,10.00"] ∧
    ((mkCmd iface meas fw 2 q).calibrate "calibrated" none none).sends = [some "Cal,?"] ∧
    ((mkCmd iface meas fw 2 q).calibrate "end" none none).sends = [some "C,0"] :=
  ⟨rfl, rfl, rfl, rfl, rfl, rfl, rfl, rfl, rfl, rfl, rfl, rfl, rfl, rfl, rfl, rfl, rfl,
    rfl, rfl, rfl, rfl, rfl⟩

/-- C7 (code bug): the I2C parse handles the error status, the
whole-payload float and the three-field comma payload exactly as claimed,
but the catch-all is not a could-not-determine fault: a `success` status
with a comma-containing payload of fewer than three fields (field index 2
absent) raises an unhandled IndexError instead of faulting the cycle. -/
theorem c7_i2c_parse_code_bug :
    InputModule.get_measurement (i2cInputState ("error", "probe disconnected"))
        = .ok ⟨some none, ["Sensor read unsuccessful: probe disconnected"]⟩ ∧
    InputModule.get_measurement (i2cInputState ("success", "7.00"))
        = .ok ⟨some (some (pyFloat "7.00")), []⟩ ∧
    InputModule.get_measurement (i2cInputState ("success", "7.00,abc,7.00"))
        = .ok ⟨some (some (pyFloat "7.00")), []⟩ ∧
    InputModule.get_measurement (i2cInputState ("success", "xyz"))
        = .ok ⟨some none, ["Could not determine pH from returned string: xyz"]⟩ ∧
    InputModule.get_measurement (i2cInputState ("success", "1,2"))
        = .error "IndexError: list index out of range" :=
  ⟨rfl, rfl, rfl, rfl, rfl⟩

/-- C8 counterexample: when `calibrate` is called with the named command
`temperature`, no operand, and a custom literal, the named branch does
not match (`set_amount is not None` fails), the chain falls through to
`elif custom_cmd:` and the custom literal IS passed to `send_command` —
refuting the claim that the named symbol always wins, including the
no-operand `temperature` case. -/
theorem c8_precedence_counterexample :
    ((mkCmd "I2C" "pH" "2.1" 2 stubQuery).calibrate "temperature" none
        (some "custom_literal")).sends = [some "custom_literal"] := rfl

/-- C8 (amended): a supplied custom literal is ignored — the call behaves
exactly as if no custom literal were given — whenever the named command's
branch matches: for every command of the enumerated set, on any state,
except `temperature` without an operand; in that one case no named branch
matches and the custom literal is sent. -/
theorem c8_precedence_amended (st : AtlasScientificCommand)
    (samt custom : Option String) (x : String) :
    st.calibrate "ec_dry" samt custom = st.calibrate "ec_dry" samt none ∧
    st.calibrate "ec_low" samt custom = st.calibrate "ec_low" samt none ∧
    st.calibrate "ec_high" samt custom = st.calibrate "ec_high" samt none ∧
    st.calibrate "temperature" (some x) custom
        = st.calibrate "temperature" (some x) none ∧
    st.calibrate "clear_calibration" samt custom
        = st.calibrate "clear_calibration" samt none ∧
    st.calibrate "continuous" samt custom = st.calibrate "continuous" samt none ∧
    st.calibrate "low" samt custom = st.calibrate "low" samt none ∧
    st.calibrate "mid" samt custom = st.calibrate "mid" samt none ∧
    st.calibrate "high" samt custom = st.calibrate "high" samt none ∧
    st.calibrate "calibrated" samt custom = st.calibrate "calibrated" samt none ∧
    st.calibrate "end" samt custom = st.calibrate "end" samt none ∧
    (st.calibrate "temperature" none (some "custom_literal")).sends
        = [some "custom_literal"] :=
  ⟨rfl, rfl, rfl, rfl, rfl, rfl, rfl, rfl, rfl, rfl, rfl, rfl⟩

/-- C9: on a Legacy (generation 1) board, `calibrate('clear_calibration')`
passes exactly two literals to `send_command`, `X` first and then `L0`;
the returned status and message are those of the `X` send alone (the
second send's result is discarded), while both sends' transport activity
still happens, in order. -/
theorem c9_clear_calibration_legacy (iface meas fw : String)
    (q : String → Except String String) :
    ((mkCmd iface meas fw 1 q).calibrate "clear_calibration" none none).sends
        = [some "X", some "L0"] ∧
    ((mkCmd iface meas fw 1 q).calibrate "clear_calibration" none none).status
        = ((mkCmd iface meas fw 1 q).send_command (some "X")).status ∧
    ((mkCmd iface meas fw 1 q).calibrate "clear_calibration" none none).msg
        = ((mkCmd iface meas fw 1 q).send_command (some "X")).msg ∧
    ((mkCmd iface meas fw 1 q).calibrate "clear_calibration" none none).queries
        = ((mkCmd iface meas fw 1 q).send_command (some "X")).queries
            ++ ((mkCmd iface meas fw 1 q).send_command (some "L0")).queries ∧
    ((mkCmd iface meas fw 1 q).calibrate "clear_calibration" none none).sleeps
        = ((mkCmd iface meas fw 1 q).send_command (some "X")).sleeps
            ++ ((mkCmd iface meas fw 1 q).send_command (some "L0")).sleeps :=
  ⟨rfl, rfl, rfl, rfl, rfl⟩

/-- C10: for every non-`None` literal, when the interface kind matches
none of FTDI, UART or I2C, `send_command` reaches no transport, still
sleeps the 100 ms settle delay, and returns the success pair
`(0, "No message")`. -/
theorem c10_unknown_interface (st : AtlasScientificCommand) (c : String)
    (h1 : st.interface ≠ "FTDI") (h2 : st.interface ≠ "UART")
    (h3 : st.interface ≠ "I2C") :
    st.send_command (some c) = ⟨.num 0, "No message", [], [100]⟩ := by
  unfold AtlasScientificCommand.send_command
  simp [h1, h2, h3]

/-- C6: for every FTDI/UART response line list, the cycle completes with a
stored value at index 0 described by `ftdiExpected`: a line equal to the
literal token `check probe` faults the cycle with the probe diagnostic
and no pH value, even when another line parses as a float; otherwise the
reading is the first line (in order) parseable as a float; and when no
line parses as a float and no fault token is present, the value-not-found
diagnostic is logged and the pH value stays absent. -/
theorem c6_ftdi_uart_parse (iface : String)
    (hif : iface = "FTDI" ∨ iface = "UART") (stat : String) (lines : List String) :
    ∃ out : CycleOut,
      InputModule.get_measurement (ftdiUartInputState iface stat lines) = .ok out ∧
      out.returned = some (ftdiExpected lines) ∧
      ("check probe" ∈ lines → "check probe returned from sensor" ∈ out.logs) ∧
      ("check probe" ∉ lines → lines.find? str_is_float = none →
        "Value or check probe not found in list" ∈ out.logs) := by
  rcases hif with rfl | rfl <;>
  · by_cases hcp : "check probe" ∈ lines
    · have hne : lines ≠ [] := List.ne_nil_of_mem hcp
      refine ⟨⟨some none, ["Returned list", "check probe returned from sensor"]⟩,
        ?_, ?_, ?_, ?_⟩
      · simp [InputModule.get_measurement, ftdiUartInputState, hcp, hne]
      · simp [ftdiExpected, hcp]
      · intro _; simp
      · intro h; exact absurd hcp h
    · cases hf : lines.find? str_is_float with
      | none =>
        refine ⟨⟨some none,
          (if lines = [] then ([] : List String) else ["Returned list"])
            ++ ["Value or check probe not found in list"]⟩, ?_, ?_, ?_, ?_⟩
        · simp [InputModule.get_measurement, ftdiUartInputState, hcp, hf, strIsFloatOpt]
        · simp [ftdiExpected, hcp, hf]
        · intro h; exact absurd h hcp
        · intro _ _; simp
      | some s =>
        have hs : str_is_float s = true := List.find?_some hf
        have hne : lines ≠ [] := by
          intro h; rw [h] at hf; simp at hf
        refine ⟨⟨some (some (pyFloat s)), ["Returned list", "Found float value"]⟩,
          ?_, ?_, ?_, ?_⟩
        · simp [InputModule.get_measurement, ftdiUartInputState, hcp, hf, strIsFloatOpt,
            hs, hne]
        · simp [ftdiExpected, hcp, hf]
        · intro h; exact absurd h hcp
        · intro _ h; exact absurd h (by simp)

/-- C6 witness: a concrete UART response whose first line is the fault
token and whose second line parses as a float — the probe fault wins. -/
theorem c6_ftdi_uart_parse_witness :
    ∃ out : CycleOut,
      InputModule.get_measurement
          (ftdiUartInputState "UART" "success" ["check probe", "7.00"]) = .ok out ∧
      out.returned = some (ftdiExpected ["check probe", "7.00"]) ∧
      ("check probe" ∈ (["check probe", "7.00"] : List String) →
        "check probe returned from sensor" ∈ out.logs) ∧
      ("check probe" ∉ (["check probe", "7.00"] : List String) →
        (["check probe", "7.00"] : List String).find? str_is_float = none →
        "Value or check probe not found in list" ∈ out.logs) :=
  c6_ftdi_uart_parse "UART" (Or.inr rfl) "success" ["check probe", "7.00"]

/-- C10 witness: a concrete state with interface `SPI`. -/
theorem c10_unknown_interface_witness :
    (mkCmd "SPI" "pH" "2.1" 2 stubQuery).interface ≠ "FTDI" ∧
    (mkCmd "SPI" "pH" "2.1" 2 stubQuery).interface ≠ "UART" ∧
    (mkCmd "SPI" "pH" "2.1" 2 stubQuery).interface ≠ "I2C" ∧
    (mkCmd "SPI" "pH" "2.1" 2 stubQuery).send_command (some "R")
        = ⟨.num 0, "No message", [], [100]⟩ :=
  ⟨by decide, by decide, by decide,
    c10_unknown_interface _ "R" (by decide) (by decide) (by decide)⟩

end Mycodo
